import Mathlib

/-!
Shallow embedding of the promptcomposer Streamlit application
(src/services.py, src/Airtable/ui_components.py, src/app.py).

Stateful Streamlit code is modelled as pure functions from an explicit
session state plus oracles for the external collaborators (the OpenAI
backend and the Airtable store) to a result record that traces every
observable effect: requests sent to the generation backend, records
created in the store, messages surfaced to the user, and the updated
session state.
-/

namespace PromptComposer

/-- A user-visible message emitted through the Streamlit API
(`st.warning`, `st.error`, `st.toast`, `st.success`). -/
inductive Msg where
  | warning (s : String)
  | error (s : String)
  | toast (s : String)
  | success (s : String)
deriving DecidableEq, Repr

/-- Python's `str.strip()` with no argument: remove leading and trailing
whitespace (executable model over the character list). -/
def pyStrip (s : String) : String :=
  ⟨((s.data.dropWhile Char.isWhitespace).reverse.dropWhile Char.isWhitespace).reverse⟩

/-- One chat-completion request sent to the OpenAI backend: the system
message content and the user message content
(`services.py`, `call_openai_api`, the `messages` argument). -/
structure ChatRequest where
  system_content : String
  user_content : String
deriving DecidableEq, Repr

/-- Oracle for the outcome of a single OpenAI chat-completion network
call: the provider returns text, raises `openai.APIError`, or raises
some other exception. -/
inductive OpenAIOutcome where
  | ok (text : String)
  | apiError (detail : String)
  | otherError (detail : String)
deriving DecidableEq, Repr

/-- `services.call_openai_api`: if the client is not initialized it
errors and returns `None` without any network call; otherwise it makes
exactly one request and returns the stripped response text, catching
`openai.APIError` and any other exception into an error message and
`None`.  Result: (returned value, requests sent, messages shown). -/
def call_openai_api (clientConfigured : Bool) (outcome : OpenAIOutcome)
    (system_prompt user_prompt : String) :
    Option String × List ChatRequest × List Msg :=
  if !clientConfigured then
    (none, [], [.error "OpenAI client is not initialized. Cannot call API."])
  else
    match outcome with
    | .ok t =>
        (some (pyStrip t), [⟨system_prompt, user_prompt⟩], [])
    | .apiError d =>
        (none, [⟨system_prompt, user_prompt⟩],
          [.error ("An OpenAI API error occurred: " ++ d)])
    | .otherError d =>
        (none, [⟨system_prompt, user_prompt⟩],
          [.error ("An unexpected error occurred while calling OpenAI: " ++ d)])

/-- The dictionary written to Airtable by `main_app_page`
(`ui_components.py`, `airtable_data`). -/
structure AirtableData where
  Goal : String
  Context : String
  Format : String
  Tone : String
  Constraints : String
  GeneratedPrompt : String
  Timestamp : String
deriving DecidableEq, Repr

/-- Oracle for the outcome of one `airtable_table.create` network call:
the store creates the record and assigns it an id, or raises. -/
inductive StoreOutcome where
  | ok (recordId : String)
  | failure (detail : String)
deriving DecidableEq, Repr

/-- `services.save_to_airtable`: if the table is not configured it warns
and returns `False` with no store call; otherwise it makes one `create`
call, returning `True` on success and catching any exception into an
error message and `False`.  Result: (returned value, number of `create`
calls, records actually created as (store-assigned id, data), messages). -/
def save_to_airtable (storeConfigured : Bool) (outcome : StoreOutcome)
    (data : AirtableData) :
    Bool × Nat × List (String × AirtableData) × List Msg :=
  if !storeConfigured then
    (false, 0, [], [.warning "Airtable is not configured. Data not saved."])
  else
    match outcome with
    | .ok rid =>
        (true, 1, [(rid, data)], [.toast "Prompt saved to Airtable!"])
    | .failure d =>
        (false, 1, [], [.error ("Failed to save data to Airtable: " ++ d)])

/-- Oracle for the outcome of one `airtable_table.all()` network call. -/
inductive FetchOutcome where
  | ok (records : List (String × List (String × String)))
  | failure (detail : String)
deriving DecidableEq, Repr

/-- `services.fetch_from_airtable`: unconfigured store warns and returns
`[]`; a failed remote call is caught into an error message and `[]`. -/
def fetch_from_airtable (storeConfigured : Bool) (outcome : FetchOutcome) :
    List (String × List (String × String)) × List Msg :=
  if !storeConfigured then
    ([], [.warning "Airtable is not configured. Cannot fetch data."])
  else
    match outcome with
    | .ok records => (records, [])
    | .failure d =>
        ([], [.error ("Failed to fetch data from Airtable: " ++ d)])

/-- The five form fields collected by `main_app_page`. -/
structure FormInput where
  goal : String
  context : String
  output_format : String
  tone : String
  constraints : String
deriving DecidableEq, Repr

/-- Python truthiness of a string: non-empty. -/
def pyTruthy (s : String) : Bool := s ≠ ""

/-- The validation check `all([goal, context, output_format, tone])` in
`main_app_page`: each required field must be a non-empty string
(no trimming is applied; `constraints` is not checked). -/
def formValid (f : FormInput) : Bool :=
  pyTruthy f.goal && pyTruthy f.context && pyTruthy f.output_format && pyTruthy f.tone

/-- The fixed system instruction built by `main_app_page`
(`system_prompt_for_generation`). -/
def system_prompt_for_generation : String :=
  "You are an expert in prompt engineering. Your task is to synthesize user-provided components " ++
  "(goal, context, format, tone, constraints) into a single, comprehensive, and highly effective prompt. " ++
  "The final prompt should be clear, detailed, and ready to be used with a powerful AI model like GPT-5. " ++
  "Structure the prompt logically, often starting with the role, followed by the task, context, and clear instructions."

/-- The user payload built by `main_app_page` (`user_input_summary`),
an f-string concatenating the five fields under labeled headings. -/
def user_input_summary (goal context output_format tone constraints : String) : String :=
  "**Goal:**\n" ++ goal ++ "\n\n" ++
  "**Context:**\n" ++ context ++ "\n\n" ++
  "**Desired Format:**\n" ++ output_format ++ "\n\n" ++
  "**Tone of Voice:**\n" ++ tone ++ "\n\n" ++
  "**Constraints:**\n" ++ constraints ++ "\n"

/-- The `airtable_data` dictionary assembled in `main_app_page` from the
form fields, the generated prompt and the current UTC timestamp. -/
def airtable_data (f : FormInput) (generated now : String) : AirtableData :=
  ⟨f.goal, f.context, f.output_format, f.tone, f.constraints, generated, now⟩

/-- Streamlit session state: `st.session_state.generated_prompt` and
`st.session_state.logged_in`, each `none` when the key is absent. -/
structure SessionState where
  generated_prompt : Option String
  logged_in : Option Bool
deriving DecidableEq, Repr

/-- Observable result of one render of `main_app_page`. -/
structure MainPageResult where
  state : SessionState
  /-- the prompt displayed via `st.code` in the results block, if any -/
  displayed : Option String
  /-- chat-completion requests sent to the OpenAI backend -/
  requests : List ChatRequest
  /-- number of `create` calls made to the Airtable store -/
  storeCalls : Nat
  /-- records actually created in the store (store-assigned id, data) -/
  created : List (String × AirtableData)
  messages : List Msg
deriving DecidableEq, Repr

/-- One render of `ui_components.main_app_page`.  `submitted` is whether
the form submit button was pressed this render; `f` the form fields;
the remaining arguments are the configuration flags and network oracles,
and `now` the current UTC timestamp string.

On a submitted form with a missing required field the function warns and
returns early (skipping the results block).  Otherwise a submitted form
calls the OpenAI backend with the fixed system instruction and the
templated user payload; a truthy (non-`None`, non-empty) result is
stored into session state and saved to Airtable.  Finally, if
`generated_prompt` is in session state, it is displayed. -/
def main_app_page (st : SessionState) (submitted : Bool) (f : FormInput)
    (openaiConfigured : Bool) (openaiOutcome : OpenAIOutcome)
    (storeConfigured : Bool) (storeOutcome : StoreOutcome)
    (now : String) : MainPageResult :=
  if submitted && !(formValid f) then
    { state := st, displayed := none, requests := [], storeCalls := 0, created := [],
      messages := [.warning "Please fill out all the required fields to generate a high-quality prompt."] }
  else
    let (generated_prompt, requests, genMsgs) :=
      if submitted then
        call_openai_api openaiConfigured openaiOutcome
          system_prompt_for_generation
          (user_input_summary f.goal f.context f.output_format f.tone f.constraints)
      else (none, [], [])
    let (st1, storeCalls, created, saveMsgs) :=
      match generated_prompt with
      | some g =>
          if g ≠ "" then
            let data := airtable_data f g now
            let (_, n, cs, ms) := save_to_airtable storeConfigured storeOutcome data
            ({ st with generated_prompt := some g }, n, cs, ms)
          else (st, 0, [], [])
      | none => (st, 0, [], [])
    match st1.generated_prompt with
    | some p =>
        { state := st1, displayed := some p, requests := requests,
          storeCalls := storeCalls, created := created,
          messages := genMsgs ++ saveMsgs ++ [.success "✅ Prompt successfully generated!"] }
    | none =>
        { state := st1, displayed := none, requests := requests,
          storeCalls := storeCalls, created := created,
          messages := genMsgs ++ saveMsgs }

/-- Result of the password gate at the top of `admin_page`: the updated
session state, whether this render proceeds past the gate into the admin
content, and the messages surfaced. -/
structure GateResult where
  state : SessionState
  proceed : Bool
  messages : List Msg
deriving DecidableEq, Repr

/-- The password gate of `ui_components.admin_page`: initializes
`st.session_state.logged_in` to `False` when absent; while it is
`False`, a click of the Login button compares the entered password with
`ADMIN_PASSWORD` — equality sets the flag and reruns (halting this
render), inequality surfaces an error — and in all unauthenticated cases
`st.stop()` halts rendering before any admin content.  Once the flag is
`True` the gate is passed. -/
def admin_gate (adminPassword : String) (st : SessionState)
    (password : String) (loginClicked : Bool) : GateResult :=
  let st0 :=
    match st.logged_in with
    | none => { st with logged_in := some false }
    | some _ => st
  if st0.logged_in = some true then
    { state := st0, proceed := true, messages := [.success "Logged in successfully."] }
  else
    if loginClicked then
      if password = adminPassword then
        { state := { st0 with logged_in := some true }, proceed := false, messages := [] }
      else
        { state := st0, proceed := false, messages := [.error "Incorrect password."] }
    else
      { state := st0, proceed := false, messages := [] }

/-- A record fetched from Airtable: the store-assigned id and the
`fields` dictionary (a text field that is empty is still representable
here, as the key mapped to `""`). -/
structure AirtableRecord where
  id : String
  fields : List (String × String)
deriving DecidableEq, Repr

/-- Lookup of a key in a record's `fields` dictionary. -/
def AirtableRecord.getField (r : AirtableRecord) (key : String) : Option String :=
  (r.fields.find? (fun p => p.1 = key)).map (fun p => p.2)

/-- `pd.DataFrame([record['fields'] for record in records])[key]`:
the column exists iff at least one record's `fields` dict has the key
(otherwise pandas raises `KeyError`, modelled as `none`); rows missing
the key hold `NaN`, modelled as an inner `none`. -/
def dfColumn (records : List AirtableRecord) (key : String) :
    Option (List (Option String)) :=
  if records.any (fun r => (r.getField key).isSome) then
    some (records.map (fun r => r.getField key))
  else
    none

/-- `Series.dropna().tolist()`: drop the `NaN` entries, keep the rest
in order. -/
def dropna (column : List (Option String)) : List String :=
  column.filterMap id

/-- The separator used by the batch trend analysis in `admin_page`. -/
def batch_separator : String := "\n\n---\n\n"

/-- The batch-analysis system instruction in `admin_page`. -/
def batch_system_prompt : String :=
  "You are a data analyst specializing in AI prompt trends..."

/-- The batch trend analysis handler in `admin_page`: builds
`all_prompts` by joining the `GeneratedPrompt` column (after `dropna`)
with the fixed separator and makes one backend call with it as the user
payload.  `none` models the uncaught `KeyError` raised when no fetched
record has a `GeneratedPrompt` field; otherwise the result carries the
joined payload and the backend call's trace. -/
def run_batch_analysis (records : List AirtableRecord)
    (openaiConfigured : Bool) (outcome : OpenAIOutcome) :
    Option (String × Option String × List ChatRequest × List Msg) :=
  match dfColumn records "GeneratedPrompt" with
  | none => none
  | some column =>
      let all_prompts := String.intercalate batch_separator (dropna column)
      some (all_prompts, call_openai_api openaiConfigured outcome batch_system_prompt all_prompts)

/-- What the metadata-extraction step of `admin_page` displays:
`st.json` of the parsed object, or `st.text` of a fallback string. -/
inductive MetadataDisplay (J : Type) where
  | jsonView (j : J)
  | text (s : String)
deriving DecidableEq, Repr

/-- The metadata-extraction step of `admin_page`, parameterized over the
external JSON parser (`json.loads`, modelled as returning `none` where
Python raises `JSONDecodeError`).  A `None` response makes `json.loads`
raise `TypeError`; both exceptions are caught and fall back to
`st.text(metadata_analysis or "Could not extract metadata.")`, where the
`or` substitutes the default for `None` and for the empty (falsy)
string. -/
def metadata_step {J : Type} (json_loads : String → Option J)
    (metadata_analysis : Option String) : MetadataDisplay J :=
  match metadata_analysis with
  | none => .text "Could not extract metadata."
  | some s =>
      match json_loads s with
      | some j => .jsonView j
      | none => if s ≠ "" then .text s else .text "Could not extract metadata."

/-- One user-triggered render of the application, as dispatched by
`app.main`: either a render of `main_app_page` or a render of
`admin_page`.  Admin content below the gate never writes to session
state, so the session-state transition of an `admin_page` render is the
gate's. -/
inductive Action where
  | mainPage (submitted : Bool) (f : FormInput)
      (openaiConfigured : Bool) (openaiOutcome : OpenAIOutcome)
      (storeConfigured : Bool) (storeOutcome : StoreOutcome) (now : String)
  | adminPage (password : String) (loginClicked : Bool)
deriving Repr

/-- The session-state transition of one render of either page. -/
def render (adminPassword : String) (a : Action) (st : SessionState) : SessionState :=
  match a with
  | .mainPage submitted f oc oo sc so now =>
      (main_app_page st submitted f oc oo sc so now).state
  | .adminPage password loginClicked =>
      (admin_gate adminPassword st password loginClicked).state

/-! ## Theorems -/

/-- C1 counterexample: a goal of `" "` is empty after trimming, yet the
submission passes the truthiness check and one request is sent to the
generation backend (the claim demands a validation error and zero
calls); moreover the validation warning is the same fixed sentence
whichever required field is missing, so it does not name the missing
fields. -/
theorem C1_counterexample :
    pyStrip " " = "" ∧
    (main_app_page ⟨none, none⟩ true ⟨" ", "ctx", "fmt", "Professional", ""⟩
        true (.ok "P") true (.ok "rec1") "ts").requests.length = 1 ∧
    (main_app_page ⟨none, none⟩ true ⟨"", "ctx", "fmt", "Professional", ""⟩
        true (.ok "P") true (.ok "rec1") "ts").messages =
      (main_app_page ⟨none, none⟩ true ⟨"g", "", "fmt", "Professional", ""⟩
        true (.ok "P") true (.ok "rec1") "ts").messages := by
  refine ⟨rfl, rfl, rfl⟩

/-- C1 (amended): if any of the four required fields (`goal`, `context`,
`format`, `tone`) is the empty string — Python truthiness, no trimming —
the submission handler shows a single fixed validation warning (which
does not name the missing fields) and makes zero calls to the generation
backend and zero calls to the store, leaving session state unchanged. -/
theorem C1_validation_blocks_submission (st : SessionState) (f : FormInput)
    (oc : Bool) (oo : OpenAIOutcome) (sc : Bool) (so : StoreOutcome) (now : String)
    (h : formValid f = false) :
    main_app_page st true f oc oo sc so now =
      { state := st, displayed := none, requests := [], storeCalls := 0, created := [],
        messages := [.warning "Please fill out all the required fields to generate a high-quality prompt."] } := by
  simp [main_app_page, h]

/-- C1 witness: the amended theorem applied to an empty `goal`. -/
theorem C1_validation_blocks_submission_witness :
    main_app_page ⟨none, none⟩ true ⟨"", "ctx", "fmt", "Professional", ""⟩
        true (.ok "P") true (.ok "rec1") "ts" =
      { state := ⟨none, none⟩, displayed := none, requests := [], storeCalls := 0, created := [],
        messages := [.warning "Please fill out all the required fields to generate a high-quality prompt."] } :=
  C1_validation_blocks_submission ⟨none, none⟩ ⟨"", "ctx", "fmt", "Professional", ""⟩
    true (.ok "P") true (.ok "rec1") "ts" (by decide)

/-- C2: for a valid submitted form with the backend configured, the
request sent to the generation backend is exactly one chat request whose
user payload is the deterministic concatenation of the five fields under
the labeled headings Goal, Context, Desired Format, Tone of Voice,
Constraints, in that order, with the Constraints section present even
when `constraints` is empty; the payload depends only on the five field
values (not on session state, the backend outcome, the store, or the
timestamp), hence is byte-identical across repeated invocations. -/
theorem C2_payload_deterministic (st : SessionState) (f : FormInput)
    (oo : OpenAIOutcome) (sc : Bool) (so : StoreOutcome) (now : String)
    (hv : formValid f = true) :
    (main_app_page st true f true oo sc so now).requests =
      [⟨system_prompt_for_generation,
        "**Goal:**\n" ++ f.goal ++ "\n\n" ++
        "**Context:**\n" ++ f.context ++ "\n\n" ++
        "**Desired Format:**\n" ++ f.output_format ++ "\n\n" ++
        "**Tone of Voice:**\n" ++ f.tone ++ "\n\n" ++
        "**Constraints:**\n" ++ f.constraints ++ "\n"⟩] := by
  obtain ⟨gp, li⟩ := st
  cases oo with
  | ok t =>
      by_cases hg : pyStrip t = "" <;>
        cases sc <;> cases so <;> cases gp <;>
          simp [main_app_page, hv, call_openai_api, user_input_summary, save_to_airtable, hg]
  | apiError d =>
      cases gp <;> simp [main_app_page, hv, call_openai_api, user_input_summary]
  | otherError d =>
      cases gp <;> simp [main_app_page, hv, call_openai_api, user_input_summary]

/-- C2 witness: the spec's own example (goal "Write a haiku", empty
constraints) sends exactly that payload. -/
theorem C2_payload_deterministic_witness :
    (main_app_page ⟨none, none⟩ true ⟨"Write a haiku", "about autumn", "3 lines", "Casual", ""⟩
        true (.ok "P") true (.ok "rec1") "ts").requests =
      [⟨system_prompt_for_generation,
        "**Goal:**\nWrite a haiku\n\n" ++
        "**Context:**\nabout autumn\n\n" ++
        "**Desired Format:**\n3 lines\n\n" ++
        "**Tone of Voice:**\nCasual\n\n" ++
        "**Constraints:**\n\n"⟩] := by
  have h := C2_payload_deterministic ⟨none, none⟩
    ⟨"Write a haiku", "about autumn", "3 lines", "Casual", ""⟩
    (.ok "P") true (.ok "rec1") "ts" (by decide)
  simpa using h

/-- C4 counterexample: `save_to_airtable` returns `True` — a Boolean
success flag — on successful persistence, and that return value is
identical for two stores assigning different record ids, so the
store-assigned `recordId` is not returned to the caller as the claim's
contract `save(submission) -> recordId | StoreError` states. -/
theorem C4_counterexample :
    (save_to_airtable true (.ok "recAAAAA") ⟨"g", "c", "f", "Professional", "", "P", "ts"⟩).1 = true ∧
    (save_to_airtable true (.ok "recBBBBB") ⟨"g", "c", "f", "Professional", "", "P", "ts"⟩).1 =
      (save_to_airtable true (.ok "recAAAAA") ⟨"g", "c", "f", "Professional", "", "P", "ts"⟩).1 := by
  exact ⟨rfl, rfl⟩

/-- C4 (amended): on successful persistence `save_to_airtable` returns
`True` (discarding the store-assigned record id rather than returning
it), makes exactly one `create` call, and the store assigns the id to
the created record at that single creation; the client exposes no update
or delete operation, so a created record's id is never reassigned. -/
theorem C4_save_returns_success_flag (rid : String) (data : AirtableData) :
    save_to_airtable true (.ok rid) data =
      (true, 1, [(rid, data)], [.toast "Prompt saved to Airtable!"]) := rfl

/-- C5: `call_openai_api` with no configured client fails with an error
message, returns `None`, and sends zero requests (short-circuit before
any network call); a provider fault (`openai.APIError` or any other
exception) is caught into a user-visible error message and resolved to
`None` rather than propagated; and in every case at most one request is
sent (no retry). -/
theorem C5_synthesizer_failure_handling (sys usr d : String) :
    (∀ outcome, call_openai_api false outcome sys usr =
      (none, [], [.error "OpenAI client is not initialized. Cannot call API."])) ∧
    call_openai_api true (.apiError d) sys usr =
      (none, [⟨sys, usr⟩], [.error ("An OpenAI API error occurred: " ++ d)]) ∧
    call_openai_api true (.otherError d) sys usr =
      (none, [⟨sys, usr⟩], [.error ("An unexpected error occurred while calling OpenAI: " ++ d)]) ∧
    ∀ c outcome, (call_openai_api c outcome sys usr).2.1.length ≤ 1 := by
  refine ⟨fun outcome => rfl, rfl, rfl, fun c outcome => ?_⟩
  cases c <;> cases outcome <;> simp [call_openai_api]

/-- C3: when synthesis succeeds with a non-empty (stripped) prompt and
the subsequent save reports failure — store unconfigured or a provider
error during `create` — the generated prompt is still stored in session
state and displayed to the caller; no record is created, and the save's
warning/error messages are surfaced alongside the success banner rather
than replacing the result (`save_to_airtable` is total: it never raises
past the store boundary). -/
theorem C3_store_failure_keeps_prompt (st : SessionState) (f : FormInput) (g : String)
    (sc : Bool) (so : StoreOutcome) (now : String)
    (hv : formValid f = true) (hg : pyStrip g ≠ "")
    (hfail : (save_to_airtable sc so (airtable_data f (pyStrip g) now)).1 = false) :
    (main_app_page st true f true (.ok g) sc so now).displayed = some (pyStrip g) ∧
    (main_app_page st true f true (.ok g) sc so now).state.generated_prompt = some (pyStrip g) ∧
    (main_app_page st true f true (.ok g) sc so now).created = [] ∧
    (main_app_page st true f true (.ok g) sc so now).messages =
      (save_to_airtable sc so (airtable_data f (pyStrip g) now)).2.2.2 ++
        [.success "✅ Prompt successfully generated!"] ∧
    (save_to_airtable sc so (airtable_data f (pyStrip g) now)).2.2.2 ≠ [] := by
  cases sc with
  | false =>
      refine ⟨?_, ?_, ?_, ?_, ?_⟩ <;>
        simp [main_app_page, hv, call_openai_api, save_to_airtable, hg]
  | true =>
      cases so with
      | ok rid => simp [save_to_airtable] at hfail
      | failure d =>
          refine ⟨?_, ?_, ?_, ?_, ?_⟩ <;>
            simp [main_app_page, hv, call_openai_api, save_to_airtable, hg]

/-- C3 witness: a successful synthesis with an unconfigured store still
displays the generated prompt. -/
theorem C3_store_failure_keeps_prompt_witness :
    (main_app_page ⟨none, none⟩ true ⟨"g", "c", "fmt", "Professional", ""⟩
        true (.ok "PROMPT") false (.ok "r") "ts").displayed = some "PROMPT" ∧
    (main_app_page ⟨none, none⟩ true ⟨"g", "c", "fmt", "Professional", ""⟩
        true (.ok "PROMPT") false (.ok "r") "ts").created = [] := by
  have h := C3_store_failure_keeps_prompt ⟨none, none⟩ ⟨"g", "c", "fmt", "Professional", ""⟩
    "PROMPT" false (.ok "r") "ts" (by decide) (by decide) (by decide)
  exact ⟨h.1, h.2.2.1⟩

/-- C6: every record created in the store by a render of
`main_app_page` carries a non-empty `GeneratedPrompt`, and that prompt
is exactly the successful result of the synthesis call for this
submission — a failed (`None`) or empty generation is never persisted. -/
theorem C6_persist_only_nonempty_success (st : SessionState) (submitted : Bool) (f : FormInput)
    (oc : Bool) (oo : OpenAIOutcome) (sc : Bool) (so : StoreOutcome) (now : String) :
    ((main_app_page st submitted f oc oo sc so now).created.all
      (fun p => p.2.GeneratedPrompt != "" &&
        ((call_openai_api oc oo system_prompt_for_generation
            (user_input_summary f.goal f.context f.output_format f.tone f.constraints)).1
          == some p.2.GeneratedPrompt))) = true := by
  obtain ⟨gp, li⟩ := st
  cases submitted with
  | false => cases gp <;> simp [main_app_page]
  | true =>
      cases hv : formValid f with
      | false => simp [main_app_page, hv]
      | true =>
          cases oc with
          | false => cases gp <;> simp [main_app_page, hv, call_openai_api]
          | true =>
              cases oo with
              | ok t =>
                  by_cases hg : pyStrip t = "" <;> cases sc <;> cases so <;> cases gp <;>
                    simp [main_app_page, hv, call_openai_api, save_to_airtable, airtable_data, hg]
              | apiError d => cases gp <;> simp [main_app_page, hv, call_openai_api]
              | otherError d => cases gp <;> simp [main_app_page, hv, call_openai_api]

/-- Joining after `dropna` over a mapped column is joining the present
values. -/
theorem dropna_map_getField (records : List AirtableRecord) (key : String) :
    dropna (records.map (fun r => r.getField key)) =
      records.filterMap (fun r => r.getField key) := by
  simp [dropna, List.filterMap_map]

/-- C7 counterexample: with a stored record whose `GeneratedPrompt` is
the empty string next to one holding `"A"`, the batch payload is
`"\n\n---\n\nA"` — the empty value is not excluded (the claim's
exclusion of empty values would give payload `"A"`); and when no fetched
record has a `GeneratedPrompt` field at all (zero usable prompts), the
pandas column lookup raises instead of completing. -/
theorem C7_counterexample :
    (run_batch_analysis
        [⟨"rec1", [("GeneratedPrompt", "")]⟩, ⟨"rec2", [("GeneratedPrompt", "A")]⟩]
        true (.ok "report")).map (fun r => r.1) = some "\n\n---\n\nA" ∧
    "\n\n---\n\nA" ≠ "A" ∧
    run_batch_analysis [⟨"rec1", [("Goal", "g")]⟩] true (.ok "report") = none := by
  refine ⟨rfl, by decide, rfl⟩

/-- C7 (amended): provided at least one fetched record has a
`GeneratedPrompt` field, batch trend analysis completes without error:
it joins all present `GeneratedPrompt` values (missing ones excluded;
empty strings included) with the fixed separator `"\n\n---\n\n"` and
makes the single backend call with that joined payload — in particular,
when every present value is empty the call still goes through with the
joined empty payload, deterministically. -/
theorem C7_batch_joins_present_prompts (records : List AirtableRecord)
    (oc : Bool) (oo : OpenAIOutcome)
    (h : records.any (fun r => (r.getField "GeneratedPrompt").isSome) = true) :
    run_batch_analysis records oc oo =
      some (String.intercalate batch_separator
              (records.filterMap (fun r => r.getField "GeneratedPrompt")),
            call_openai_api oc oo batch_system_prompt
              (String.intercalate batch_separator
                (records.filterMap (fun r => r.getField "GeneratedPrompt")))) := by
  simp [run_batch_analysis, dfColumn, h, dropna_map_getField]

/-- C7 witness: the amended theorem applied to a store whose only
present prompt is empty — zero usable prompts — still calls through
with the empty payload. -/
theorem C7_batch_joins_present_prompts_witness :
    run_batch_analysis [⟨"rec1", [("GeneratedPrompt", "")]⟩] true (.ok "report") =
      some ("", some "report", [⟨batch_system_prompt, ""⟩], []) := by
  have h := C7_batch_joins_present_prompts [⟨"rec1", [("GeneratedPrompt", "")]⟩]
    true (.ok "report") (by decide)
  exact h

/-- C8: the metadata-extraction step is a total function of the backend
response (it never throws): when the response text does not parse as
JSON — for any JSON parser — it falls back to displaying the raw text,
and when the backend call produced no text (`None`) it displays the
fixed fallback message. -/
theorem C8_metadata_parse_fallback {J : Type} (json_loads : String → Option J) (s : String)
    (hparse : json_loads s = none) (hne : s ≠ "") :
    metadata_step json_loads (some s) = .text s ∧
    metadata_step json_loads none = (.text "Could not extract metadata." : MetadataDisplay J) := by
  constructor
  · simp [metadata_step, hparse, hne]
  · rfl

/-- C8 witness: a backend response of `not valid json` under a parser
rejecting it is displayed raw. -/
theorem C8_metadata_parse_fallback_witness :
    metadata_step (fun _ => (none : Option Nat)) (some "not valid json") = .text "not valid json" ∧
    metadata_step (fun _ => (none : Option Nat)) none =
      (.text "Could not extract metadata." : MetadataDisplay Nat) :=
  C8_metadata_parse_fallback (fun _ => none) "not valid json" rfl (by decide)

/-- C9: at the admin gate, entering the shared secret sets the
session-scoped `logged_in` flag; entering anything else leaves the
session at `logged_in = some false` and surfaces the "Incorrect
password." error; a second wrong attempt from the resulting state
behaves identically (the gate is a total function, so repeated wrong
attempts never crash); and for any entry whatsoever, a render starting
unauthenticated never proceeds past the gate into the admin content
(rendering halts). -/
theorem C9_admin_gate_behavior (pw wrong entered : String) (clicked : Bool)
    (st : SessionState) (hw : wrong ≠ pw) (hu : st.logged_in ≠ some true) :
    (admin_gate pw st pw true).state.logged_in = some true ∧
    (admin_gate pw st wrong true).state.logged_in = some false ∧
    (admin_gate pw st wrong true).messages = [.error "Incorrect password."] ∧
    (admin_gate pw ((admin_gate pw st wrong true).state) wrong true).state.logged_in = some false ∧
    (admin_gate pw st entered clicked).proceed = false := by
  obtain ⟨gp, li⟩ := st
  have hli : li = none ∨ li = some false := by
    cases li with
    | none => exact Or.inl rfl
    | some b =>
        cases b with
        | false => exact Or.inr rfl
        | true => exact absurd rfl hu
  rcases hli with h | h <;> subst h <;>
    cases clicked <;> by_cases he : entered = pw <;>
      simp [admin_gate, hw, he]

/-- C9 witness: the gate theorem at a concrete secret, wrong entry and
fresh session. -/
theorem C9_admin_gate_behavior_witness :
    (admin_gate "admin123" ⟨none, none⟩ "admin123" true).state.logged_in = some true ∧
    (admin_gate "admin123" ⟨none, none⟩ "x" true).state.logged_in = some false ∧
    (admin_gate "admin123" ⟨none, none⟩ "x" true).messages = [.error "Incorrect password."] ∧
    (admin_gate "admin123" ((admin_gate "admin123" ⟨none, none⟩ "x" true).state) "x" true).state.logged_in
      = some false ∧
    (admin_gate "admin123" ⟨none, none⟩ "y" false).proceed = false :=
  C9_admin_gate_behavior "admin123" "x" "y" false ⟨none, none⟩ (by decide) (by decide)

/-- A render of `main_app_page` never touches the `logged_in` flag. -/
theorem main_app_page_preserves_logged_in (st : SessionState) (submitted : Bool)
    (f : FormInput) (oc : Bool) (oo : OpenAIOutcome) (sc : Bool) (so : StoreOutcome)
    (now : String) :
    (main_app_page st submitted f oc oo sc so now).state.logged_in = st.logged_in := by
  obtain ⟨gp, li⟩ := st
  cases submitted with
  | false => cases gp <;> simp [main_app_page]
  | true =>
      cases hv : formValid f with
      | false => simp [main_app_page, hv]
      | true =>
          cases oc with
          | false => cases gp <;> simp [main_app_page, hv, call_openai_api]
          | true =>
              cases oo with
              | ok t =>
                  by_cases hg : pyStrip t = "" <;> cases sc <;> cases so <;> cases gp <;>
                    simp [main_app_page, hv, call_openai_api, save_to_airtable, hg]
              | apiError d => cases gp <;> simp [main_app_page, hv, call_openai_api]
              | otherError d => cases gp <;> simp [main_app_page, hv, call_openai_api]

/-- C10: once `st.session_state.logged_in` is `True`, no render of
either page — for any inputs and any backend/store outcomes — ever sets
it back to `False` or removes it: there is no logout path, and every
subsequent admin render finds the session authenticated. -/
theorem C10_logged_in_is_permanent (pw : String) (a : Action) (st : SessionState)
    (h : st.logged_in = some true) :
    (render pw a st).logged_in = some true := by
  cases a with
  | mainPage submitted f oc oo sc so now =>
      show (main_app_page st submitted f oc oo sc so now).state.logged_in = some true
      rw [main_app_page_preserves_logged_in]
      exact h
  | adminPage password clicked =>
      obtain ⟨gp, li⟩ := st
      simp only [SessionState.mk.injEq] at h
      simp [render, admin_gate, h]

/-- C10 witness: an authenticated session stays authenticated across an
admin render with a wrong password entry. -/
theorem C10_logged_in_is_permanent_witness :
    (render "admin123" (.adminPage "x" true) ⟨none, some true⟩).logged_in = some true :=
  C10_logged_in_is_permanent "admin123" (.adminPage "x" true) ⟨none, some true⟩ rfl

end PromptComposer
